import Mathlib

/-!
Verification of the rshim / runc-shim container-shim core.

This file is a shallow embedding, in Lean 4, of the code that decides the
claims about the shim:

* the `machine!`/`transitions!` state machines of
  `src/runtime/v1/rshim/src/state.rs` (the `machine` crate generates, for
  every state enum, an extra `Error` variant and total transition functions
  `on_start`/`on_stop`/`on_pause`/`on_delete` that send every undefined
  transition to `Error`);
* the process objects of `src/runtime/v1/rshim/src/process.rs`
  (`InitProcess`, `ExecProcess`) with their lifecycle operations
  `start`, `pause`, `resume`, `delete`, `kill`, `set_exited`;
* the service layer `src/runtime/v1/rshim/src/shim_service.rs`
  (`delete`, `wait`) and the synchronous task service
  `src/cmd/rust-extensions/crates/runc-shim/src/synchronous/task.rs`
  (`wait`, `shutdown`);
* the ECHILD fallback of `Runc::command`
  (`src/runtime/v1/rshim/rust-runc/src/lib.rs`);
* the unmount helpers of `src/runtime/v1/rshim/src/mount_linux.rs`;
* the I/O wiring decision `create_io`/`set_io` of
  `src/cmd/rust-extensions/crates/runc-shim/src/common.rs`.

Rust strings that are only compared for equality are embedded as `String`;
strings that undergo substring matching or URL parsing are embedded as
`List Char`.  External effects (the runtime subprocess, `libc::umount`,
`thread::sleep`, the exit table shared with the reaper) are passed in as
explicit parameters, and where an ordering of effects matters the embedded
function additionally returns the list of effects in program order.
-/

namespace Shim

/-! ## State machines (`state.rs`, `machine` crate semantics) -/

/-- The `InitState` enum generated by `machine!`, including the implicit
`Error` variant the `machine` crate adds. -/
inductive InitState
  | created
  | createdCheckpoint
  | running
  | paused
  | stopped
  | deleted
  | error
deriving DecidableEq, Repr

/-- The `ExecState` enum generated by `machine!`, including the implicit
`Error` variant. -/
inductive ExecState
  | execCreated
  | execRunning
  | execStopped
  | execDeleted
  | error
deriving DecidableEq, Repr

/-- The four transition events of `state.rs`. -/
inductive Event
  | start
  | stop
  | pause
  | delete
deriving DecidableEq, Repr

/-- `InitState::on_start`, as generated by `transitions!(InitState, ...)`:
defined transitions follow the table, everything else goes to `Error`. -/
def InitState.onStart : InitState → InitState
  | .created => .running
  | .createdCheckpoint => .running
  | .paused => .running
  | _ => .error

/-- `InitState::on_stop` as generated by `transitions!`. -/
def InitState.onStop : InitState → InitState
  | .created => .stopped
  | .createdCheckpoint => .stopped
  | .running => .stopped
  | .paused => .stopped
  | _ => .error

/-- `InitState::on_pause` as generated by `transitions!`. -/
def InitState.onPause : InitState → InitState
  | .running => .paused
  | _ => .error

/-- `InitState::on_delete` as generated by `transitions!`. -/
def InitState.onDelete : InitState → InitState
  | .created => .deleted
  | .createdCheckpoint => .deleted
  | .stopped => .deleted
  | _ => .error

/-- `ExecState::on_start` as generated by `transitions!(ExecState, ...)`. -/
def ExecState.onStart : ExecState → ExecState
  | .execCreated => .execRunning
  | _ => .error

/-- `ExecState::on_stop` as generated by `transitions!`. -/
def ExecState.onStop : ExecState → ExecState
  | .execCreated => .execStopped
  | .execRunning => .execStopped
  | _ => .error

/-- `ExecState::on_delete` as generated by `transitions!`. -/
def ExecState.onDelete : ExecState → ExecState
  | .execCreated => .execDeleted
  | .execStopped => .execDeleted
  | _ => .error

/-- The transition table literally as written in the
`transitions!(InitState, [...])` block of `state.rs` (which coincides with
the table of spec §4.4): `none` means the pair is not in the table. -/
def initTable : InitState → Event → Option InitState
  | .created, .start => some .running
  | .created, .stop => some .stopped
  | .created, .delete => some .deleted
  | .createdCheckpoint, .start => some .running
  | .createdCheckpoint, .stop => some .stopped
  | .createdCheckpoint, .delete => some .deleted
  | .running, .stop => some .stopped
  | .running, .pause => some .paused
  | .paused, .start => some .running
  | .paused, .stop => some .stopped
  | .stopped, .delete => some .deleted
  | _, _ => none

/-- The transition table of `transitions!(ExecState, [...])`. -/
def execTable : ExecState → Event → Option ExecState
  | .execCreated, .start => some .execRunning
  | .execCreated, .stop => some .execStopped
  | .execCreated, .delete => some .execDeleted
  | .execRunning, .stop => some .execStopped
  | .execStopped, .delete => some .execDeleted
  | _, _ => none

/-- Rust `{:?}` (Debug) rendering of an `InitState` value, as produced by
the derived `Debug` on the `machine!`-generated enum (each populated
variant wraps a unit struct of the same name). -/
def InitState.debugStr : InitState → String
  | .created => "Created(Created)"
  | .createdCheckpoint => "CreatedCheckpoint(CreatedCheckpoint)"
  | .running => "Running(Running)"
  | .paused => "Paused(Paused)"
  | .stopped => "Stopped(Stopped)"
  | .deleted => "Deleted(Deleted)"
  | .error => "Error"

/-- Rust `{:?}` (Debug) rendering of an `ExecState` value. -/
def ExecState.debugStr : ExecState → String
  | .execCreated => "ExecCreated(ExecCreated)"
  | .execRunning => "ExecRunning(ExecRunning)"
  | .execStopped => "ExecStopped(ExecStopped)"
  | .execDeleted => "ExecDeleted(ExecDeleted)"
  | .error => "Error"

/-! ## Errors (`ttrpc::Code`, `errors.rs`, `rust_runc::Error`) -/

/-- The `ttrpc::Code` values the embedded operations produce. -/
inductive Code
  | notFound
  | invalidArgument
  | alreadyExists
  | failedPrecondition
  | internal
deriving DecidableEq, Repr

/-- Errors returned by the process-object operations: either a classified
ttrpc error (`ttrpc_error(code, msg)`) or a propagated runtime/anyhow
error (`?` on a runtime-adapter call). -/
inductive OpErr
  | ttrpc (code : Code) (msg : String)
  | runtime (msg : String)
deriving DecidableEq, Repr

/-- `rust_runc::Error`, restricted to the variants the claims touch.
`runcCommand` carries `source.to_string()` (as `List Char`, for substring
matching) and `source.raw_os_error()`. -/
inductive RuncError
  | processSpawn
  | runcCommand (msg : List Char) (osCode : Option Int)
  | runcCommandFailed (stdout stderr : String)
  | otherError
deriving DecidableEq, Repr

/-! ## Process objects (`process.rs`)

Only the fields the claims mention are carried; the I/O handles, the
runtime handle and the bundle path are owned by the process in the source
but are never read by the embedded operations.  The one-shot `wait_pair`
latch `(Mutex<bool>, Condvar)` is embedded as the boolean `latch`; the
`chrono` timestamp taken by `set_exited` is passed in as `now : Nat`. -/

structure InitProcess where
  id : String
  state : InitState
  /-- `status: i32`, the recorded exit status. -/
  status : Int
  /-- `exited: Option<DateTime<Local>>`; `none` = unset. -/
  exited : Option Nat
  /-- the boolean inside `wait_pair`; `true` once the latch is released. -/
  latch : Bool
  rootfs : String
  pid : Int
deriving DecidableEq, Repr

structure ExecProcess where
  id : String
  state : ExecState
  status : Int
  exited : Option Nat
  latch : Bool
  pid : Int
deriving DecidableEq, Repr

/-- Observable steps of `set_exited`, in program order: the writes of
`self.status`/`self.exited` and the latch release
(`*exited = true; condvar.notify_all()`). -/
inductive ExitStep
  | recordStatus
  | recordExitedAt
  | releaseLatch
deriving DecidableEq, Repr

/-- `InitProcess::set_exited` (process.rs:934-953).  Returns the updated
process and the observable steps in the order the code performs them. -/
def InitProcess.setExited (p : InitProcess) (status : Int) (now : Nat) :
    InitProcess × List ExitStep :=
  if p.state = InitState.stopped then (p, [])
  else
    ({ p with
        status := status
        exited := some now
        -- the `Paused` branch is a TODO in the source: no resume happens
        state := p.state.onStop
        latch := true },
      [.recordStatus, .recordExitedAt, .releaseLatch])

/-- `ExecProcess::set_exited` (process.rs:779-792). -/
def ExecProcess.setExited (q : ExecProcess) (status : Int) (now : Nat) :
    ExecProcess × List ExitStep :=
  if q.state = ExecState.execStopped then (q, [])
  else
    ({ q with
        status := status
        exited := some now
        state := q.state.onStop
        latch := true },
      [.recordStatus, .recordExitedAt, .releaseLatch])

/-- `InitProcess::start` (process.rs:834-851).  `rt` is the outcome of
`self.runtime.start(&self.id)`. -/
def InitProcess.start (rt : Except String Unit) (p : InitProcess) :
    InitProcess × Option OpErr :=
  if p.state = InitState.created ∨ p.state = InitState.createdCheckpoint then
    match rt with
    | .error m => (p, some (.runtime m))
    | .ok _ => ({ p with state := p.state.onStart }, none)
  else
    (p, some (.ttrpc .failedPrecondition
      ("cannot start a " ++ p.state.debugStr ++ " process")))

/-- `InitProcess::pause` (process.rs:452-466). -/
def InitProcess.pause (rt : Except String Unit) (p : InitProcess) :
    InitProcess × Option OpErr :=
  if p.state = InitState.running then
    match rt with
    | .error m => (p, some (.runtime m))
    | .ok _ => ({ p with state := p.state.onPause }, none)
  else
    (p, some (.ttrpc .failedPrecondition
      ("cannot pause a " ++ p.state.debugStr ++ " process")))

/-- `InitProcess::resume` (process.rs:468-482); note it applies the
`Start` event (`self.state.on_start(state::Start)`). -/
def InitProcess.resume (rt : Except String Unit) (p : InitProcess) :
    InitProcess × Option OpErr :=
  if p.state = InitState.paused then
    match rt with
    | .error m => (p, some (.runtime m))
    | .ok _ => ({ p with state := p.state.onStart }, none)
  else
    (p, some (.ttrpc .failedPrecondition
      ("cannot resume a " ++ p.state.debugStr ++ " process")))

/-- Rust `{:?}` of a `String` (used inside the umount error message). -/
def rustDebug (s : String) : String := "\"" ++ s ++ "\""

/-- `InitProcess::delete` (process.rs:853-892).  `rt` is the outcome of
`self.runtime.delete(...)`; `umountAllRet` is the value
`mount_linux::umount_all(self.rootfs)` would return (only consulted when
`rootfs` is non-empty).  Note the state transition happens *before* the
unmount, so a failing unmount leaves the process `Deleted`. -/
def InitProcess.delete (rt : Except String Unit) (umountAllRet : Int)
    (p : InitProcess) : InitProcess × Option OpErr :=
  if p.state = InitState.created ∨ p.state = InitState.createdCheckpoint ∨
      p.state = InitState.stopped then
    match rt with
    | .error m => (p, some (.runtime m))
    | .ok _ =>
      let p1 := { p with state := p.state.onDelete }
      if p.rootfs ≠ "" then
        if umountAllRet ≠ 0 then
          (p1, some (.ttrpc .failedPrecondition
            ("cannot umount rootfs " ++ rustDebug p.rootfs ++
              " for container " ++ rustDebug p.id)))
        else (p1, none)
      else (p1, none)
  else if p.state = InitState.deleted then
    (p, some (.ttrpc .notFound
      ("cannot delete a " ++ p.state.debugStr ++ " process")))
  else
    (p, some (.ttrpc .failedPrecondition
      ("cannot delete a " ++ p.state.debugStr ++ " process")))

/-- `ExecProcess::start` (process.rs:558-706).  The whole fallible middle
(console socket, runtime exec, pid-file read) is abstracted into `rt`;
the state is only touched at the very end on success. -/
def ExecProcess.start (rt : Except String Unit) (q : ExecProcess) :
    ExecProcess × Option OpErr :=
  if q.state ≠ ExecState.execCreated then
    (q, some (.ttrpc .failedPrecondition
      ("cannot start a " ++ q.state.debugStr ++ " process")))
  else
    match rt with
    | .error m => (q, some (.runtime m))
    | .ok _ => ({ q with state := q.state.onStart }, none)

/-- `ExecProcess::delete` (process.rs:724-747).  The pid-file removal has
its error silently ignored and is not modelled. -/
def ExecProcess.delete (q : ExecProcess) : ExecProcess × Option OpErr :=
  if q.state = ExecState.execCreated ∨ q.state = ExecState.execStopped then
    ({ q with state := q.state.onDelete }, none)
  else if q.state = ExecState.execDeleted then
    (q, some (.ttrpc .notFound
      ("cannot delete a " ++ q.state.debugStr ++ " process")))
  else
    (q, some (.ttrpc .failedPrecondition
      ("cannot delete a " ++ q.state.debugStr ++ " process")))

/-! ## C1: `set_exited` -/

/-- C1 (counterexample).  The claim says that after `set_exited` returns the
state is `Stopped` for every process; but for an `InitProcess` already in
`Deleted`, `on_stop` is undefined and the `machine`-crate transition sends
the state to `Error`, not `Stopped`. -/
theorem C1_counterexample :
    (({ id := "c1", state := InitState.deleted, status := 0, exited := none,
        latch := false, rootfs := "", pid := 7 } : InitProcess).setExited 9 42).1.state
        = InitState.error ∧
    (({ id := "c1", state := InitState.deleted, status := 0, exited := none,
        latch := false, rootfs := "", pid := 7 } : InitProcess).setExited 9 42).1.state
        ≠ InitState.stopped := by
  constructor
  · rfl
  · decide

/-- C1 (amended).  For every process whose current state admits the `Stop`
transition (Init: Created/CreatedCheckpoint/Running/Paused; Exec:
ExecCreated/ExecRunning), after `set_exited(s)` the state is
Stopped/ExecStopped, `exit_status = s`, `exited_at` is set, the latch is
released, and both fields are recorded strictly before the latch release
(witnessed by the step trace).  If the process is already
Stopped/ExecStopped, `set_exited` is a no-op.  (From `Deleted`/`Error` the
state instead becomes the machine's `Error` state — see the
counterexample.) -/
theorem C1_set_exited (p : InitProcess) (q : ExecProcess) (s : Int) (now : Nat) :
    (∀ t, initTable p.state .stop = some t →
      (p.setExited s now).1.state = InitState.stopped ∧
      (p.setExited s now).1.status = s ∧
      (p.setExited s now).1.exited = some now ∧
      (p.setExited s now).1.latch = true ∧
      (p.setExited s now).2 =
        [ExitStep.recordStatus, ExitStep.recordExitedAt, ExitStep.releaseLatch] ∧
      (p.setExited s now).2.indexOf ExitStep.recordStatus <
        (p.setExited s now).2.indexOf ExitStep.releaseLatch ∧
      (p.setExited s now).2.indexOf ExitStep.recordExitedAt <
        (p.setExited s now).2.indexOf ExitStep.releaseLatch) ∧
    (p.state = InitState.stopped → p.setExited s now = (p, [])) ∧
    (∀ t, execTable q.state .stop = some t →
      (q.setExited s now).1.state = ExecState.execStopped ∧
      (q.setExited s now).1.status = s ∧
      (q.setExited s now).1.exited = some now ∧
      (q.setExited s now).1.latch = true ∧
      (q.setExited s now).2 =
        [ExitStep.recordStatus, ExitStep.recordExitedAt, ExitStep.releaseLatch] ∧
      (q.setExited s now).2.indexOf ExitStep.recordStatus <
        (q.setExited s now).2.indexOf ExitStep.releaseLatch ∧
      (q.setExited s now).2.indexOf ExitStep.recordExitedAt <
        (q.setExited s now).2.indexOf ExitStep.releaseLatch) ∧
    (q.state = ExecState.execStopped → q.setExited s now = (q, [])) := by
  refine ⟨?_, ?_, ?_, ?_⟩
  · intro t ht
    cases hs : p.state <;>
      simp [hs, initTable] at ht <;>
      simp [InitProcess.setExited, hs, InitState.onStop]
  · intro hs
    simp [InitProcess.setExited, hs]
  · intro t ht
    cases hs : q.state <;>
      simp [hs, execTable] at ht <;>
      simp [ExecProcess.setExited, hs, ExecState.onStop]
  · intro hs
    simp [ExecProcess.setExited, hs]

/-- C1 (witness): the amended theorem applied to a concrete running init
process and a concrete running exec process. -/
theorem C1_set_exited_witness :
    (({ id := "c1", state := InitState.running, status := 0, exited := none,
        latch := false, rootfs := "", pid := 7 } : InitProcess).setExited 137 55).1.state
        = InitState.stopped ∧
    (({ id := "e1", state := ExecState.execRunning, status := 0, exited := none,
        latch := false, pid := 8 } : ExecProcess).setExited 0 56).1.exited = some 56 := by
  have h := C1_set_exited
    { id := "c1", state := InitState.running, status := 0, exited := none,
      latch := false, rootfs := "", pid := 7 }
    { id := "e1", state := ExecState.execRunning, status := 0, exited := none,
      latch := false, pid := 8 } 137 55
  have h' := C1_set_exited
    { id := "c1", state := InitState.running, status := 0, exited := none,
      latch := false, rootfs := "", pid := 7 }
    { id := "e1", state := ExecState.execRunning, status := 0, exited := none,
      latch := false, pid := 8 } 0 56
  exact ⟨(h.1 InitState.stopped rfl).1, (h'.2.2.1 ExecState.execStopped rfl).2.2.1⟩

/-! ## C2: lifecycle transitions -/

/-- C2 (counterexample).  `(Deleted, Stop)` is not in the transition table,
yet attempting it (the `Stop` event is applied only by `set_exited`, whose
return type carries no error at all) does not produce `FailedPrecondition`
and does not leave the state unchanged: the state silently becomes the
machine's `Error` state. -/
theorem C2_counterexample :
    initTable InitState.deleted Event.stop = none ∧
    (({ id := "c1", state := InitState.deleted, status := 0, exited := none,
        latch := false, rootfs := "", pid := 7 } : InitProcess).setExited 3 8).1.state
        = InitState.error ∧
    (({ id := "c1", state := InitState.deleted, status := 0, exited := none,
        latch := false, rootfs := "", pid := 7 } : InitProcess).setExited 3 8).1.state
        ≠ InitState.deleted := by
  refine ⟨rfl, rfl, by decide⟩

/-- C2 (amended).  With the runtime call succeeding, every transition in
the `state.rs` table is realised by the corresponding operation (`Start`
from `Paused` is performed by `resume`; `start` itself rejects `Paused`),
every off-table attempt through `start`/`resume`/`pause`/`delete` returns
`FailedPrecondition` with a message naming the current state and leaves
the state unchanged, and `delete` on an already-deleted process returns
`NotFound`.  The exception (forced by the counterexample) is the `Stop`
event, applied by `set_exited`: it is a no-op from Stopped/ExecStopped
and from any other off-table state silently moves the machine to its
`Error` state instead of failing. -/
theorem C2_transitions (p : InitProcess) (q : ExecProcess) (s : Int) (now : Nat) :
    ((∀ t, initTable p.state .start = some t →
      (p.state = InitState.paused →
        p.resume (.ok ()) = ({ p with state := t }, none)) ∧
      (p.state ≠ InitState.paused →
        p.start (.ok ()) = ({ p with state := t }, none))) ∧
    (initTable p.state .start = none →
      p.start (.ok ()) = (p, some (.ttrpc .failedPrecondition
        ("cannot start a " ++ p.state.debugStr ++ " process"))) ∧
      p.resume (.ok ()) = (p, some (.ttrpc .failedPrecondition
        ("cannot resume a " ++ p.state.debugStr ++ " process")))) ∧
    (∀ t, initTable p.state .pause = some t →
      p.pause (.ok ()) = ({ p with state := t }, none)) ∧
    (initTable p.state .pause = none →
      p.pause (.ok ()) = (p, some (.ttrpc .failedPrecondition
        ("cannot pause a " ++ p.state.debugStr ++ " process")))) ∧
    (∀ t, initTable p.state .delete = some t →
      p.delete (.ok ()) 0 = ({ p with state := t }, none)) ∧
    (p.state = InitState.deleted →
      p.delete (.ok ()) 0 = (p, some (.ttrpc .notFound
        ("cannot delete a " ++ p.state.debugStr ++ " process")))) ∧
    (initTable p.state .delete = none → p.state ≠ InitState.deleted →
      p.delete (.ok ()) 0 = (p, some (.ttrpc .failedPrecondition
        ("cannot delete a " ++ p.state.debugStr ++ " process")))) ∧
    (∀ t, initTable p.state .stop = some t → (p.setExited s now).1.state = t) ∧
    (p.state = InitState.stopped → p.setExited s now = (p, [])) ∧
    ((p.state = InitState.deleted ∨ p.state = InitState.error) →
      (p.setExited s now).1.state = InitState.error)) ∧
    ((∀ t, execTable q.state .start = some t →
      q.start (.ok ()) = ({ q with state := t }, none)) ∧
    (execTable q.state .start = none →
      q.start (.ok ()) = (q, some (.ttrpc .failedPrecondition
        ("cannot start a " ++ q.state.debugStr ++ " process")))) ∧
    (∀ t, execTable q.state .delete = some t →
      q.delete = ({ q with state := t }, none)) ∧
    (q.state = ExecState.execDeleted →
      q.delete = (q, some (.ttrpc .notFound
        ("cannot delete a " ++ q.state.debugStr ++ " process")))) ∧
    (execTable q.state .delete = none → q.state ≠ ExecState.execDeleted →
      q.delete = (q, some (.ttrpc .failedPrecondition
        ("cannot delete a " ++ q.state.debugStr ++ " process")))) ∧
    (∀ t, execTable q.state .stop = some t → (q.setExited s now).1.state = t) ∧
    (q.state = ExecState.execStopped → q.setExited s now = (q, [])) ∧
    ((q.state = ExecState.execDeleted ∨ q.state = ExecState.error) →
      (q.setExited s now).1.state = ExecState.error)) := by
  constructor
  · cases hp : p.state <;>
      simp [hp, initTable, InitProcess.start, InitProcess.resume, InitProcess.pause,
        InitProcess.delete, InitProcess.setExited, InitState.onStart, InitState.onStop,
        InitState.onPause, InitState.onDelete, InitState.debugStr]
  · cases hq : q.state <;>
      simp [hq, execTable, ExecProcess.start, ExecProcess.delete, ExecProcess.setExited,
        ExecState.onStart, ExecState.onStop, ExecState.onDelete, ExecState.debugStr]

/-- C2 (witness): concrete instances — `start` on a Created init moves it
to Running; `delete` on an ExecDeleted exec returns `NotFound`. -/
theorem C2_transitions_witness :
    (({ id := "c1", state := InitState.created, status := 0, exited := none,
        latch := false, rootfs := "", pid := 0 } : InitProcess).start (.ok ())).1.state
        = InitState.running ∧
    (({ id := "e1", state := ExecState.execDeleted, status := 0, exited := none,
        latch := false, pid := 0 } : ExecProcess).delete).2
        = some (.ttrpc .notFound "cannot delete a ExecDeleted(ExecDeleted) process") := by
  have h := C2_transitions
    { id := "c1", state := InitState.created, status := 0, exited := none,
      latch := false, rootfs := "", pid := 0 }
    { id := "e1", state := ExecState.execDeleted, status := 0, exited := none,
      latch := false, pid := 0 } 0 0
  constructor
  · have h1 := (h.1.1 InitState.running rfl).2 (by decide)
    rw [h1]
  · have h2 := h.2.2.2.2.1 rfl
    rw [h2]
    rfl

/-! ## C3: `wait` -/

/-- `containerd.v1.types.Status` as consulted by `ShimTask::wait`. -/
inductive TaskStatus
  | unknown
  | created
  | running
  | stopped
  | paused
  | pausing
deriving DecidableEq, Repr

/-- The container state record returned by `container.state(exec_id)` and
consulted by `ShimTask::wait` before deciding whether to block. -/
structure ContainerSnapshot where
  status : TaskStatus
  exitStatus : Int
  exitedAt : Option Nat
deriving DecidableEq, Repr

/-- Observable steps of a `wait` RPC handler, in program order. -/
inductive WaitAction
  | acquireLock
  | readState
  | getWaitChannel
  | releaseLock
  | blockOnChannel
  | readExitInfo
deriving DecidableEq, Repr

/-- `ShimTask::wait` (task.rs:312-345): under the container-map lock it
reads the state; if the status is neither RUNNING nor CREATED it returns
the recorded exit info immediately; otherwise it obtains the wait channel,
drops the map lock (`drop(containers)`), blocks on `rx.recv()`, re-locks
the map and reads the exit info (`postWake`, the process's exit fields at
wake time).  Returned alongside the response is the list of steps in
program order. -/
def shimTaskWait (c : ContainerSnapshot) (postWake : Int × Option Nat) :
    List WaitAction × (Int × Option Nat) :=
  if c.status ≠ TaskStatus.running ∧ c.status ≠ TaskStatus.created then
    ([.acquireLock, .readState], (c.exitStatus, c.exitedAt))
  else
    ([.acquireLock, .readState, .getWaitChannel, .releaseLock, .blockOnChannel,
      .acquireLock, .readExitInfo], postWake)

/-- `ShimService::wait` (shim_service.rs:707-749): the handler waits on
the process's `wait_pair` while the latch boolean is false and, once it is
true, returns the process's recorded `exit_status`/`exited_at`.  `none`
means the call is still blocked on the condvar. -/
def shimServiceWaitReturns (p : InitProcess) : Option (Int × Option Nat) :=
  if p.latch then some (p.status, p.exited) else none

/-- `ShimService::wait` for an exec process (same handler; the process is
found in the same map). -/
def shimServiceWaitReturnsExec (q : ExecProcess) : Option (Int × Option Nat) :=
  if q.latch then some (q.status, q.exited) else none

/-- C3.  (i) If the container is already stopped, `wait` returns
immediately (no blocking step) with the recorded exit info; (ii) if it is
running or created, the handler releases the map lock strictly before
blocking and re-acquires it strictly after; (iii) a `wait` cannot return
while the latch is unreleased, and after the reaper's `set_exited(s)` at
time `now` (from any state with a defined Stop transition) the value a
waiter reads is exactly the recorded pair `(s, now)` — for init and exec
processes alike. -/
theorem C3_wait (c : ContainerSnapshot) (pw : Int × Option Nat)
    (p : InitProcess) (q : ExecProcess) (s : Int) (now : Nat) :
    (c.status = TaskStatus.stopped →
      (shimTaskWait c pw).2 = (c.exitStatus, c.exitedAt) ∧
      WaitAction.blockOnChannel ∉ (shimTaskWait c pw).1) ∧
    ((c.status = TaskStatus.running ∨ c.status = TaskStatus.created) →
      ∃ i j k, i < j ∧ j < k ∧
        (shimTaskWait c pw).1.get? i = some WaitAction.releaseLock ∧
        (shimTaskWait c pw).1.get? j = some WaitAction.blockOnChannel ∧
        (shimTaskWait c pw).1.get? k = some WaitAction.acquireLock ∧
        (shimTaskWait c pw).2 = pw) ∧
    (p.latch = false → shimServiceWaitReturns p = none) ∧
    (∀ t, initTable p.state .stop = some t →
      shimServiceWaitReturns (p.setExited s now).1 = some (s, some now)) ∧
    (∀ t, execTable q.state .stop = some t →
      shimServiceWaitReturnsExec (q.setExited s now).1 = some (s, some now)) := by
  refine ⟨?_, ?_, ?_, ?_, ?_⟩
  · intro h
    simp [shimTaskWait, h]
  · intro h
    have hn : ¬(c.status ≠ TaskStatus.running ∧ c.status ≠ TaskStatus.created) := by
      rcases h with h | h <;> simp [h]
    refine ⟨3, 4, 5, by omega, by omega, ?_⟩
    simp [shimTaskWait, hn]
  · intro h
    simp [shimServiceWaitReturns, h]
  · intro t ht
    cases hs : p.state <;> simp [hs, initTable] at ht <;>
      simp [InitProcess.setExited, shimServiceWaitReturns, hs]
  · intro t ht
    cases hs : q.state <;> simp [hs, execTable] at ht <;>
      simp [ExecProcess.setExited, shimServiceWaitReturnsExec, hs]

/-- C3 (witness): a stopped container's `wait` answers immediately with
the recorded info; a running container's `wait` has the
release-block-reacquire shape; a waiter observes exactly what
`set_exited(137)` recorded. -/
theorem C3_wait_witness :
    (shimTaskWait ⟨TaskStatus.stopped, 137, some 5⟩ (0, none)).2 = (137, some 5) ∧
    (∃ i j k, i < j ∧ j < k ∧
      (shimTaskWait ⟨TaskStatus.running, 0, none⟩ (137, some 5)).1.get? i
        = some WaitAction.releaseLock ∧
      (shimTaskWait ⟨TaskStatus.running, 0, none⟩ (137, some 5)).1.get? j
        = some WaitAction.blockOnChannel ∧
      (shimTaskWait ⟨TaskStatus.running, 0, none⟩ (137, some 5)).1.get? k
        = some WaitAction.acquireLock ∧
      (shimTaskWait ⟨TaskStatus.running, 0, none⟩ (137, some 5)).2 = (137, some 5)) ∧
    shimServiceWaitReturns
      (({ id := "c1", state := InitState.running, status := 0, exited := none,
          latch := false, rootfs := "", pid := 7 } : InitProcess).setExited 137 5).1
      = some (137, some 5) := by
  have h1 := C3_wait ⟨TaskStatus.stopped, 137, some 5⟩ (0, none)
    { id := "c1", state := InitState.running, status := 0, exited := none,
      latch := false, rootfs := "", pid := 7 }
    { id := "e1", state := ExecState.execRunning, status := 0, exited := none,
      latch := false, pid := 8 } 137 5
  have h2 := C3_wait ⟨TaskStatus.running, 0, none⟩ (137, some 5)
    { id := "c1", state := InitState.running, status := 0, exited := none,
      latch := false, rootfs := "", pid := 7 }
    { id := "e1", state := ExecState.execRunning, status := 0, exited := none,
      latch := false, pid := 8 } 137 5
  exact ⟨(h1.1 rfl).1, h2.2.1 (Or.inl rfl), (h1.2.2.2.1 InitState.stopped rfl)⟩

/-! ## C4: `Runc::command`'s ECHILD fallback (rust-runc/src/lib.rs:688-725) -/

/-- Outcome of the wait-handling part of `Runc::command`: the result, how
many times the exit table was polled, and the total milliseconds slept
(the source sleeps `Duration::from_millis(100)` per miss). -/
structure EchildOutcome where
  res : Except RuncError Unit
  polls : Nat
  sleptMs : Nat
deriving Repr

/-- The `for i in 1..11 { ... }` polling loop: at each attempt the child's
pid is removed from the exit table; a hit with a non-zero code fails with
the captured stdout/stderr, a hit with zero breaks out into the success
path, a miss sleeps 100 ms and retries; exhausting the loop falls through
into the success path.  `lookup i` is what `list.remove(&pid)` returns at
attempt `i`. -/
def pollLoop (lookup : Nat → Option Int) (stdout stderr : String) :
    Nat → Nat → EchildOutcome
  | 0, _ => ⟨.ok (), 0, 0⟩
  | fuel + 1, i =>
    match lookup i with
    | some c =>
      ⟨if c = 0 then .ok () else .error (.runcCommandFailed stdout stderr), 1, 0⟩
    | none =>
      let r := pollLoop lookup stdout stderr fuel (i + 1)
      ⟨r.res, r.polls + 1, r.sleptMs + 100⟩

/-- `HashMap::remove(&pid)` on the shared exit table (pid → exit code):
returns the table without the entry together with the removed value. -/
def exitRemove (t : List (Int × Int)) (pid : Int) : List (Int × Int) × Option Int :=
  (t.filter (fun e => !(e.1 == pid)), (t.find? (fun e => e.1 == pid)).map (·.2))

/-- `Runc::command`'s handling of `child.wait()`: on `Ok(status)` failure
means `RuncCommandFailedError{stdout, stderr}`; on an `Err` whose
`raw_os_error()` is not `ECHILD` (= 10) it returns `RuncCommandError`; on
`ECHILD` it runs the polling loop against the shared exit table
(`snapshots i` is the table's contents at poll `i`). -/
def commandWait (waitRes : Except (List Char × Option Int) Bool)
    (stdout stderr : String) (snapshots : Nat → List (Int × Int))
    (childPid : Int) : EchildOutcome :=
  match waitRes with
  | .ok success =>
    if success then ⟨.ok (), 0, 0⟩
    else ⟨.error (.runcCommandFailed stdout stderr), 0, 0⟩
  | .error (_, none) => ⟨.ok (), 0, 0⟩
  | .error (msg, some ec) =>
    if ec ≠ 10 then ⟨.error (.runcCommand msg (some ec)), 0, 0⟩
    else pollLoop (fun i => (exitRemove (snapshots i) childPid).2) stdout stderr 10 1

theorem pollLoop_polls_le (lookup : Nat → Option Int) (so se : String) :
    ∀ fuel i, (pollLoop lookup so se fuel i).polls ≤ fuel := by
  intro fuel
  induction fuel with
  | zero => intro i; exact Nat.le_refl 0
  | succ n ih =>
    intro i
    cases h : lookup i with
    | some c =>
      simp only [pollLoop, h]
      exact Nat.succ_le_succ (Nat.zero_le n)
    | none =>
      simp only [pollLoop, h]
      exact Nat.succ_le_succ (ih (i + 1))

theorem pollLoop_found (lookup : Nat → Option Int) (so se : String) :
    ∀ fuel i j c, i ≤ j → j < i + fuel → lookup j = some c →
      (∀ m, i ≤ m → m < j → lookup m = none) →
      pollLoop lookup so se fuel i =
        ⟨if c = 0 then .ok () else .error (.runcCommandFailed so se),
          j - i + 1, 100 * (j - i)⟩ := by
  intro fuel
  induction fuel with
  | zero => intro i j c hij hlt; omega
  | succ n ih =>
    intro i j c hij hlt hj hmiss
    rcases Nat.eq_or_lt_of_le hij with heq | hlt'
    · subst heq
      simp [pollLoop, hj]
    · have hi : lookup i = none := hmiss i le_rfl hlt'
      have := ih (i + 1) j c hlt' (by omega) hj
        (fun m hm hm' => hmiss m (by omega) hm')
      simp [pollLoop, hi, this]
      constructor <;> omega

theorem pollLoop_miss (lookup : Nat → Option Int) (so se : String) :
    ∀ fuel i, (∀ m, i ≤ m → m < i + fuel → lookup m = none) →
      pollLoop lookup so se fuel i = ⟨.ok (), fuel, 100 * fuel⟩ := by
  intro fuel
  induction fuel with
  | zero => intro i _; simp [pollLoop]
  | succ n ih =>
    intro i hmiss
    have hi : lookup i = none := hmiss i le_rfl (by omega)
    have := ih (i + 1) (fun m hm hm' => hmiss m (by omega) (by omega))
    simp [pollLoop, hi, this]
    omega

/-- C4.  On `ECHILD` from the blocking wait the adapter polls the shared
exit table for the child's pid: (a) a non-ECHILD error is not tolerated;
(b) at most 10 polls happen; (c) if the pid first appears at poll `j`
(1 ≤ j ≤ 10) the loop stops there after `j − 1` sleeps of 100 ms, failing
with the captured stdout/stderr when the recorded code is non-zero and
proceeding as a success when it is zero; (d) if the pid never appears the
call proceeds as a success after 10 polls and 10 sleeps; (e) a found
entry is consumed — after `remove`, the pid is no longer in the table. -/
theorem C4_echild_fallback (stdout stderr : String) (msg : List Char)
    (snapshots : Nat → List (Int × Int)) (pid ec : Int) :
    (ec ≠ 10 → commandWait (.error (msg, some ec)) stdout stderr snapshots pid
      = ⟨.error (.runcCommand msg (some ec)), 0, 0⟩) ∧
    (commandWait (.error (msg, some 10)) stdout stderr snapshots pid).polls ≤ 10 ∧
    (∀ j c, 1 ≤ j → j ≤ 10 →
      (exitRemove (snapshots j) pid).2 = some c →
      (∀ m, 1 ≤ m → m < j → (exitRemove (snapshots m) pid).2 = none) →
      commandWait (.error (msg, some 10)) stdout stderr snapshots pid
        = ⟨if c = 0 then .ok () else .error (.runcCommandFailed stdout stderr),
            j, 100 * (j - 1)⟩) ∧
    ((∀ m, 1 ≤ m → m ≤ 10 → (exitRemove (snapshots m) pid).2 = none) →
      commandWait (.error (msg, some 10)) stdout stderr snapshots pid
        = ⟨.ok (), 10, 1000⟩) ∧
    (∀ t : List (Int × Int),
      (exitRemove t pid).1.find? (fun e => e.1 == pid) = none) := by
  refine ⟨?_, ?_, ?_, ?_, ?_⟩
  · intro h
    simp [commandWait, h]
  · simp only [commandWait, if_neg (by simp : ¬(10 : Int) ≠ 10)]
    exact pollLoop_polls_le _ _ _ 10 1
  · intro j c h1 h10 hj hmiss
    simp only [commandWait, if_neg (by simp : ¬(10 : Int) ≠ 10)]
    have := pollLoop_found (fun i => (exitRemove (snapshots i) pid).2)
      stdout stderr 10 1 j c h1 (by omega) hj
      (fun m hm hm' => hmiss m hm hm')
    rw [this]
    congr 1
    omega
  · intro hmiss
    simp only [commandWait, if_neg (by simp : ¬(10 : Int) ≠ 10)]
    have := pollLoop_miss (fun i => (exitRemove (snapshots i) pid).2)
      stdout stderr 10 1 (fun m hm hm' => hmiss m hm (by omega))
    rw [this]
  · intro t
    refine List.find?_eq_none.mpr ?_
    intro e he
    have := List.mem_filter.mp he
    simpa using this.2

/-- C4 (witness): the reaper records exit code 2 for pid 42 just before
the third poll; the adapter stops at poll 3 after two 100 ms sleeps and
fails with the captured output. -/
theorem C4_echild_fallback_witness :
    commandWait (.error ("boom".toList, some 10)) "out" "err"
      (fun i => if i = 3 then [(42, 2)] else []) 42
      = ⟨.error (.runcCommandFailed "out" "err"), 3, 200⟩ := by
  have h := (C4_echild_fallback "out" "err" "boom".toList
    (fun i => if i = 3 then [(42, 2)] else []) 42 10).2.2.1 3 2
    (by decide) (by decide) (by decide)
    (by intro m h1 h2; interval_cases m <;> rfl)
  simpa using h

/-! ## C5: `ShimTask::shutdown` (task.rs:360-372) -/

/-- The part of a `ShimTask` that `shutdown` touches: the size of the
container map, whether the `Once` guard has already run, and how many
times `exit.signal()` has been invoked. -/
structure ShimTaskState where
  containers : Nat
  shutdownOnceDone : Bool
  exitSignals : Nat
deriving DecidableEq, Repr

/-- `ShimTask::shutdown`: under the map lock, a non-empty map makes the
call return `Ok(Empty)` without touching the exit signal; an empty map
fires `exit.signal()` through the `Once` (so at most once ever) and
returns `Ok(Empty)`. -/
def shutdown (st : ShimTaskState) : ShimTaskState × Except OpErr Unit :=
  if st.containers > 0 then (st, .ok ())
  else if st.shutdownOnceDone then (st, .ok ())
  else ({ st with shutdownOnceDone := true, exitSignals := st.exitSignals + 1 },
    .ok ())

/-- `n` successive `shutdown` calls. -/
def shutdownN : Nat → ShimTaskState → ShimTaskState
  | 0, st => st
  | n + 1, st => shutdownN n (shutdown st).1

theorem shutdownN_fix : ∀ (m : Nat) (s : ShimTaskState), s.containers = 0 →
    s.shutdownOnceDone = true → shutdownN m s = s := by
  intro m
  induction m with
  | zero => intro s _ _; rfl
  | succ n ih =>
    intro s h0 h1
    have hs : shutdown s = (s, .ok ()) := by
      simp [shutdown, h0, h1]
    simp only [shutdownN, hs]
    exact ih s h0 h1

/-- C5.  `shutdown` on a non-empty container map is a no-op that still
returns success; on an empty map every call returns Empty, and starting
from a fresh server (signal not yet fired) any number `n ≥ 1` of
consecutive shutdown calls fires the exit signal exactly once. -/
theorem C5_shutdown (st : ShimTaskState) :
    (st.containers > 0 → shutdown st = (st, .ok ())) ∧
    (st.containers = 0 → (shutdown st).2 = .ok () ∧
      (st.shutdownOnceDone = false →
        (shutdown st).1.exitSignals = st.exitSignals + 1)) ∧
    (st.containers = 0 → st.shutdownOnceDone = false → st.exitSignals = 0 →
      ∀ n, 1 ≤ n → (shutdownN n st).exitSignals = 1) := by
  refine ⟨?_, ?_, ?_⟩
  · intro h
    simp [shutdown, h]
  · intro h0
    constructor
    · by_cases h1 : st.shutdownOnceDone <;> simp [shutdown, h0, h1]
    · intro h1
      simp [shutdown, h0, h1]
  · intro h0 h1 h2 n hn
    obtain ⟨m, rfl⟩ := Nat.exists_eq_add_of_le hn
    have hs : (shutdown st).1 =
        { st with shutdownOnceDone := true, exitSignals := st.exitSignals + 1 } := by
      simp [shutdown, h0, h1]
    have : shutdownN (1 + m) st = shutdownN m (shutdown st).1 := by
      have : 1 + m = m + 1 := by omega
      rw [this]
      rfl
    rw [this, hs, shutdownN_fix m _ (by simp [h0]) rfl]
    simp [h2]

/-- C5 (witness): two consecutive shutdowns of a fresh server with an
empty map both return Empty, and the exit signal has fired exactly once. -/
theorem C5_shutdown_witness :
    (shutdown ⟨0, false, 0⟩).2 = .ok () ∧
    (shutdown (shutdown ⟨0, false, 0⟩).1).2 = .ok () ∧
    (shutdownN 2 ⟨0, false, 0⟩).exitSignals = 1 := by
  refine ⟨((C5_shutdown ⟨0, false, 0⟩).2.1 rfl).1,
    ((C5_shutdown (shutdown ⟨0, false, 0⟩).1).2.1 rfl).1,
    (C5_shutdown ⟨0, false, 0⟩).2.2 rfl rfl rfl 2 (by decide)⟩

/-! ## C6: `mount_linux::umount` / `umount_all` -/

/-- Outcome of one `libc::umount(2)` call: the C function returns 0 on
success and -1 on failure — the reason (EBUSY, EINVAL, ...) is reported
only through `errno`, never as the return value. -/
inductive UmountCall
  | success
  | failure (errno : Int)
deriving DecidableEq, Repr

/-- The value `libc::umount` returns for a given outcome. -/
def umountRet : UmountCall → Int
  | .success => 0
  | .failure _ => -1

/-- The `while counter < 50` loop of `mount_linux::umount`
(mount_linux.rs:208-227), comparing — as the source does — the *return
value* of `libc::umount` against the constant `libc::EBUSY` (= 16):
`behavior n` is the outcome of the `n`-th syscall; a comparison hit
sleeps 50 ms and retries, anything else breaks.  Returns the final `ret`
and the number of syscalls made.  (The fuel-exhausted base case is
reachable only after an iteration whose `ret` was 16.) -/
def umountLoop (behavior : Nat → UmountCall) : Nat → Nat → Int × Nat
  | 0, idx => (16, idx)
  | fuel + 1, idx =>
    let ret := umountRet (behavior idx)
    if ret = 16 then umountLoop behavior fuel (idx + 1)
    else (ret, idx + 1)

/-- `mount_linux::umount`: the loop entered with `counter = 0`. -/
def umount (behavior : Nat → UmountCall) : Int × Nat := umountLoop behavior 50 0

/-- `mount_linux::umount_all` (mount_linux.rs:229-238): returns 0 when
`umount` returned `libc::EINVAL` (= 22), else the `umount` result. -/
def umount_all (behavior : Nat → UmountCall) : Int :=
  if (umount behavior).1 = 22 then 0 else (umount behavior).1

/-- C6 (code bug).  Because `libc::umount` returns only 0 or -1, the
`ret == EBUSY` / `ret == EINVAL` comparisons never fire: for every syscall
behavior the loop performs exactly one unmount attempt and returns that
attempt's raw return value — even when the failure is EBUSY, no retry
happens, and when the failure is EINVAL ("not mounted") `umount_all`
returns -1 (so `InitProcess::delete` fails) instead of the success the
spec requires. -/
theorem C6_umount_dead_errno_checks :
    (∀ behavior, umount behavior = (umountRet (behavior 0), 1)) ∧
    umount_all (fun _ => UmountCall.failure 22) = -1 ∧
    umount_all (fun _ => UmountCall.failure 16) = -1 ∧
    umount (fun _ => UmountCall.failure 16) = (-1, 1) := by
  have key : ∀ behavior, umount behavior = (umountRet (behavior 0), 1) := by
    intro behavior
    cases h : behavior 0 <;> simp [umount, umountLoop, h, umountRet]
  refine ⟨key, ?_, ?_, ?_⟩
  · rw [umount_all, key (fun _ => UmountCall.failure 22)]
    rfl
  · rw [umount_all, key (fun _ => UmountCall.failure 16)]
    rfl
  · exact key (fun _ => UmountCall.failure 16)

/-! ## C9: `InitProcess::kill` (process.rs:894-932) -/

/-- `str::starts_with` on character lists. -/
def isPre : List Char → List Char → Bool
  | [], _ => true
  | _ :: _, [] => false
  | a :: as, b :: bs => a == b && isPre as bs

/-- `str::contains` (substring search) on character lists. -/
def hasSub : List Char → List Char → Bool
  | n, [] => n.isEmpty
  | n, c :: t => isPre n (c :: t) || hasSub n t

/-- `str::to_lowercase` (the classifier strings are ASCII). -/
def lowerStr (s : List Char) : List Char := s.map Char.toLower

theorem isPre_append (pre : List Char) :
    ∀ n s, isPre (pre ++ n) s = true → hasSub n s = true := by
  induction pre with
  | nil =>
    intro n s h
    cases s with
    | nil =>
      cases n with
      | nil => rfl
      | cons a as => simp [isPre] at h
    | cons c t =>
      simp only [List.nil_append] at h
      simp only [hasSub, Bool.or_eq_true]
      exact Or.inl h
  | cons p ps ih =>
    intro n s h
    cases s with
    | nil => simp [isPre] at h
    | cons c t =>
      simp only [List.cons_append, isPre, Bool.and_eq_true] at h
      have hrec := ih n t h.2
      simp only [hasSub, Bool.or_eq_true]
      exact Or.inr hrec

/-- If a string contains `pre ++ n` as a substring it also contains `n`. -/
theorem hasSub_mono (pre n : List Char) :
    ∀ s, hasSub (pre ++ n) s = true → hasSub n s = true := by
  intro s
  induction s with
  | nil =>
    intro h
    simp only [hasSub, List.isEmpty_iff] at h ⊢
    exact (List.append_eq_nil.mp h).2
  | cons c t ih =>
    intro h
    simp only [hasSub, Bool.or_eq_true] at h
    rcases h with h | h
    · exact isPre_append pre n (c :: t) h
    · simp only [hasSub, Bool.or_eq_true]
      exact Or.inr (ih h)

/-- The substring classifier of `InitProcess::kill` applied to
`source.to_string()` and `source.raw_os_error()` of a
`RuncCommandError` (`Errno::ESRCH` = 3). -/
def killClassified (msg : List Char) (osCode : Option Int) : Option OpErr :=
  if hasSub "os: process already finished".toList msg ||
      hasSub "container not running".toList msg ||
      hasSub "no such process".toList (lowerStr msg) ||
      osCode == some 3 then
    some (.ttrpc .notFound "process already finished")
  else if hasSub "does not exist".toList msg then
    some (.ttrpc .notFound "no such container")
  else none

/-- `InitProcess::kill`: `NotFound` when already Deleted; otherwise the
error of a failed runtime kill is inspected — a `RuncCommandError`
matching the classifier is normalized to `NotFound`, and *everything
else* falls off the end of the `match`, so the method returns `Ok`. -/
def InitProcess.kill (rt : Except RuncError Unit) (p : InitProcess) :
    Except OpErr Unit :=
  if p.state = InitState.deleted then
    .error (.ttrpc .notFound ("cannot kill a " ++ p.state.debugStr ++ " process"))
  else
    match rt with
    | .ok _ => .ok ()
    | .error e =>
      match e with
      | .runcCommand msg ec =>
        match killClassified msg ec with
        | some err => .error err
        | none => .ok ()
      | _ => .ok ()

/-- The claim's classifier patterns: the kill error message matches
"process already finished", "container not running", "no such process"
(case-insensitively, as in the source), "does not exist", or the os error
is ESRCH. -/
def matchesClaimClassifier (msg : List Char) (ec : Option Int) : Prop :=
  hasSub "process already finished".toList msg = true ∨
  hasSub "container not running".toList msg = true ∨
  hasSub "no such process".toList (lowerStr msg) = true ∨
  hasSub "does not exist".toList msg = true ∨
  ec = some 3

instance (msg : List Char) (ec : Option Int) :
    Decidable (matchesClaimClassifier msg ec) := by
  unfold matchesClaimClassifier
  infer_instance

/-- C9.  For a kill on a process not yet Deleted whose runtime kill fails
with an error that either is not a `RuncCommandError` or whose message
matches none of the classifier substrings (nor ESRCH), `kill` discards
the error and returns Ok. -/
theorem C9_kill_swallows (p : InitProcess) (e : RuncError)
    (hst : p.state ≠ InitState.deleted)
    (hcase : (∀ msg ec, e ≠ .runcCommand msg ec) ∨
      (∃ msg ec, e = .runcCommand msg ec ∧ ¬matchesClaimClassifier msg ec)) :
    p.kill (.error e) = .ok () := by
  cases e with
  | runcCommand msg ec =>
    rcases hcase with hall | ⟨m, c, heq, hnm⟩
    · exact absurd rfl (hall msg ec)
    · obtain ⟨rfl, rfl⟩ : msg = m ∧ ec = c := by
        injection heq with h1 h2
        exact ⟨h1, h2⟩
      simp only [matchesClaimClassifier, not_or] at hnm
      obtain ⟨h1, h2, h3, h4, h5⟩ := hnm
      have hos : hasSub "os: process already finished".toList msg = false := by
        cases hcontra : hasSub "os: process already finished".toList msg with
        | false => rfl
        | true =>
          have hsplit : "os: ".toList ++ "process already finished".toList =
              "os: process already finished".toList := by decide
          have := hasSub_mono "os: ".toList "process already finished".toList msg
            (hsplit ▸ hcontra)
          exact absurd this h1
      have h2' : hasSub "container not running".toList msg = false :=
        Bool.not_eq_true _ ▸ eq_false_of_ne_true h2
      have h3' : hasSub "no such process".toList (lowerStr msg) = false :=
        eq_false_of_ne_true h3
      have h4' : hasSub "does not exist".toList msg = false :=
        eq_false_of_ne_true h4
      have h5' : (ec == some 3) = false := by
        simp [h5]
      have hclass : killClassified msg ec = none := by
        unfold killClassified
        rw [hos, h2', h3', h4', h5']
        rfl
      simp [InitProcess.kill, hst, hclass]
  | processSpawn => simp [InitProcess.kill, hst]
  | runcCommandFailed so se => simp [InitProcess.kill, hst]
  | otherError => simp [InitProcess.kill, hst]

/-- C9 (witness): a running init whose runtime kill fails with an
unclassified message ("disk on fire") still reports success. -/
theorem C9_kill_swallows_witness :
    InitProcess.kill (.error (.runcCommand "disk on fire".toList none))
      { id := "c1", state := InitState.running, status := 0, exited := none,
        latch := false, rootfs := "", pid := 7 } = .ok () := by
  exact C9_kill_swallows
    { id := "c1", state := InitState.running, status := 0, exited := none,
      latch := false, rootfs := "", pid := 7 }
    (.runcCommand "disk on fire".toList none)
    (by decide)
    (Or.inr ⟨"disk on fire".toList, none, rfl, by decide⟩)

/-! ## C10: `ShimService::delete` (shim_service.rs:302-345) -/

/-- The service state `delete` touches: the shim's configured container id
and the process map guarded by the big mutex. -/
structure ServiceInner where
  sid : Option String
  processes : List (String × InitProcess)
deriving Repr

def lookupProc (m : List (String × InitProcess)) (k : String) : Option InitProcess :=
  (m.find? (fun e => e.1 == k)).map (·.2)

/-- The in-place mutation of the entry borrowed via `get_mut`. -/
def updateProc (m : List (String × InitProcess)) (k : String) (p : InitProcess) :
    List (String × InitProcess) :=
  m.map (fun e => if e.1 == k then (k, p) else e)

def removeProc (m : List (String × InitProcess)) (k : String) :
    List (String × InitProcess) :=
  m.filter (fun e => !(e.1 == k))

/-- `ShimService::delete`: looks the init process up under the map lock
and calls `p.delete()?`.  The `&mut` borrow means the process object in
the map is mutated even when `delete` then propagates an error; only on
success does the handler build the response (pid, exit_status, exited_at)
and remove the entry from the map. -/
def serviceDelete (rt : Except String Unit) (umountAllRet : Int)
    (s : ServiceInner) : ServiceInner × Except OpErr (Int × Int × Option Nat) :=
  match s.sid with
  | none => (s, .error (.ttrpc .notFound "container must be created"))
  | some sid =>
    match lookupProc s.processes sid with
    | none => (s, .error (.ttrpc .notFound "container must be created"))
    | some p =>
      let pe := InitProcess.delete rt umountAllRet p
      match pe.2 with
      | some err =>
        ({ s with processes := updateProc s.processes sid pe.1 }, .error err)
      | none =>
        ({ s with processes := removeProc (updateProc s.processes sid pe.1) sid },
          .ok (pe.1.pid, pe.1.status, pe.1.exited))

theorem lookupProc_update (k : String) (q : InitProcess) :
    ∀ m p, lookupProc m k = some p → lookupProc (updateProc m k q) k = some q := by
  intro m
  induction m with
  | nil => intro p h; simp [lookupProc] at h
  | cons e t ih =>
    intro p h
    by_cases he : e.1 == k
    · simp [lookupProc, updateProc, List.find?, he]
    · simp only [lookupProc, updateProc, List.map_cons, if_neg he] at *
      rw [List.find?_cons_of_neg _ (by simpa using he)] at h
      rw [List.find?_cons_of_neg _ (by simpa using he)]
      exact ih p h

/-- C10.  `InitProcess::delete` transitions to `Deleted` *before* the
rootfs unmount; if the unmount then fails, the error propagates out of
the service handler before the map removal, so the handler leaves the
now-`Deleted` process object in the container map. -/
theorem C10_delete_nonatomic (s : ServiceInner) (sid : String) (p : InitProcess)
    (ur : Int) (hsid : s.sid = some sid)
    (hp : lookupProc s.processes sid = some p)
    (hstate : p.state = InitState.created ∨ p.state = InitState.createdCheckpoint ∨
      p.state = InitState.stopped)
    (hroot : p.rootfs ≠ "") (hur : ur ≠ 0) :
    (InitProcess.delete (.ok ()) ur p).1.state = InitState.deleted ∧
    (serviceDelete (.ok ()) ur s).2 = .error (.ttrpc .failedPrecondition
      ("cannot umount rootfs " ++ rustDebug p.rootfs ++
        " for container " ++ rustDebug p.id)) ∧
    lookupProc (serviceDelete (.ok ()) ur s).1.processes sid
      = some { p with state := InitState.deleted } := by
  have hdel : InitProcess.delete (.ok ()) ur p =
      ({ p with state := InitState.deleted },
        some (.ttrpc .failedPrecondition
          ("cannot umount rootfs " ++ rustDebug p.rootfs ++
            " for container " ++ rustDebug p.id))) := by
    rcases hstate with h | h | h <;>
      simp [InitProcess.delete, h, InitState.onDelete, hroot, hur]
  refine ⟨by rw [hdel], ?_, ?_⟩
  · simp [serviceDelete, hsid, hp, hdel]
  · simp only [serviceDelete, hsid, hp, hdel]
    exact lookupProc_update sid _ s.processes p hp

/-- C10 (witness): a stopped init with a bound rootfs whose unmount fails
(`umount_all` result −1) ends up `Deleted` yet still in the map, and the
RPC reports the unmount failure. -/
theorem C10_delete_nonatomic_witness :
    (serviceDelete (.ok ()) (-1)
      { sid := some "c1",
        processes := [("c1",
          { id := "c1", state := InitState.stopped, status := 137, exited := some 5,
            latch := true, rootfs := "/run/rootfs", pid := 7 })] }).2
      = .error (.ttrpc .failedPrecondition
          "cannot umount rootfs \"/run/rootfs\" for container \"c1\"") ∧
    lookupProc
      (serviceDelete (.ok ()) (-1)
        { sid := some "c1",
          processes := [("c1",
            { id := "c1", state := InitState.stopped, status := 137, exited := some 5,
              latch := true, rootfs := "/run/rootfs", pid := 7 })] }).1.processes "c1"
      = some { id := "c1", state := InitState.deleted, status := 137,
               exited := some 5, latch := true, rootfs := "/run/rootfs",
               pid := 7 } := by
  have h := C10_delete_nonatomic
    { sid := some "c1",
      processes := [("c1",
        { id := "c1", state := InitState.stopped, status := 137, exited := some 5,
          latch := true, rootfs := "/run/rootfs", pid := 7 })] }
    "c1"
    { id := "c1", state := InitState.stopped, status := 137, exited := some 5,
      latch := true, rootfs := "/run/rootfs", pid := 7 }
    (-1) rfl rfl (Or.inr (Or.inr rfl)) (by decide) (by decide)
  exact ⟨h.2.1, h.2.2⟩

/-! ## C7/C8: `create_io` / `set_io` (runc-shim common.rs:49-136, 258-282) -/

/-- Rust `str::trim` (remove leading and trailing whitespace). -/
def trimStr (s : List Char) : List Char :=
  ((s.dropWhile Char.isWhitespace).reverse.dropWhile Char.isWhitespace).reverse

/-- Split at the first occurrence of `"://"`: the parts before and after;
`none` when the separator does not occur. -/
def splitScheme : List Char → Option (List Char × List Char)
  | [] => none
  | c :: t =>
    if isPre "://".toList (c :: t) then some ([], (c :: t).drop 3)
    else
      match splitScheme t with
      | none => none
      | some (a, b) => some (c :: a, b)

/-- `stdout.trim().split("://").len() > 1`, i.e. the trimmed stdout URI
carries a scheme separator. -/
def hasSchemeSep (s : List Char) : Bool := hasSub "://".toList (trimStr s)

/-- A `url::Url`, restricted to the accessors `create_io`/`set_io` call. -/
structure UrlRec where
  scheme : List Char
  host : List Char
  path : List Char
deriving DecidableEq, Repr

/-- `url::Url::parse` for non-special schemes, on inputs free of the
characters the WHATWG parser rewrites (no percent-encoding, no `.`/`..`
segment normalization, no query/fragment): `scheme "://" host path`,
where the host runs up to the first `/` of the remainder and `Url::path()`
is the rest (empty when there is no `/`).  `none` models `ParseError`.
The crate lowercases the scheme; callers apply `lowerStr` where the
source reads `url.scheme()`. -/
def urlParse (s : List Char) : Option UrlRec :=
  match splitScheme s with
  | none => none
  | some (sch, rest) =>
    match sch with
    | [] => none
    | c :: _ =>
      if c.isAlpha &&
          sch.all (fun d => d.isAlpha || d.isDigit || d == '+' || d == '-' || d == '.') then
        some ⟨sch, rest.takeWhile (fun d => !(d == '/')),
          rest.dropWhile (fun d => !(d == '/'))⟩
      else none

/-- `containerd_shim::Error`, restricted to the variants `create_io`
produces.  `urlParseError` is the `?`-propagated `url::ParseError`. -/
inductive ShimErr
  | invalidArgument (m : String)
  | other (m : String)
  | ioError (m : String)
  | urlParseError
deriving DecidableEq, Repr

/-- The stdio 4-tuple handed to `create_io` (each stream a URI-or-path
string; empty = not wired). -/
structure StdioCfg where
  stdin : List Char
  stdout : List Char
  stderr : List Char
  terminal : Bool
deriving DecidableEq, Repr

/-- Modelled from the spec: `Stdio::is_null` lives in the containerd-shim
crate, which is not under src/; §4.2 — "If all three streams are empty →
null scheme". -/
def StdioCfg.isNull (s : StdioCfg) : Bool :=
  s.stdin.isEmpty && s.stdout.isEmpty && s.stderr.isEmpty

inductive IoMode
  | nullIo
  | binaryIo
  | pipedIo
deriving DecidableEq, Repr

/-- The `ProcessIO` record built by `create_io`: the kept URI, which I/O
implementation was installed, whether copier threads will run, and the
`stdio_path` triple recorded for the copier. -/
structure ProcessIo where
  uri : Option (List Char)
  mode : Option IoMode
  copy : Bool
  stdinPath : List Char
  stdoutPath : List Char
  stderrPath : List Char
  terminal : Bool
deriving DecidableEq, Repr

/-- `set_io` (common.rs:258-282).  With no scheme on stdout the raw
strings are stored; with a scheme each non-empty stream is re-parsed as a
URL (stderr and stdout unconditionally — `?` on `Url::parse` can fail)
and the URL's path portion is stored. -/
def set_io (schemeless openStdin : Bool) (stdio : StdioCfg) (pio : ProcessIo) :
    Except ShimErr ProcessIo :=
  if schemeless then
    .ok { pio with
      stdinPath := if openStdin then stdio.stdin else pio.stdinPath
      stdoutPath := stdio.stdout
      stderrPath := stdio.stderr }
  else
    match (if openStdin then urlParse stdio.stdin else some ⟨[], [], pio.stdinPath⟩) with
    | none => .error .urlParseError
    | some ui =>
      match urlParse stdio.stdout with
      | none => .error .urlParseError
      | some uo =>
        match urlParse stdio.stderr with
        | none => .error .urlParseError
        | some ue =>
          .ok { pio with
            stdinPath := ui.path
            stdoutPath := uo.path
            stderrPath := ue.path }

/-- The scheme dispatch at the end of `create_io` (common.rs:95-135):
`binary` installs a binary-logging sink with no copier; `fifo`/`file`
create the pipe trio, record the paths via `set_io` and enable copying;
anything else is rejected with `Error::Other("unknown scheme")`. -/
def createIoDispatch (scheme uri : List Char) (schemeless : Bool)
    (stdio : StdioCfg) : Except ShimErr ProcessIo :=
  if scheme == "binary".toList then
    .ok { uri := some uri, mode := some .binaryIo, copy := false,
          stdinPath := [], stdoutPath := [], stderrPath := [],
          terminal := stdio.terminal }
  else if scheme == "fifo".toList || scheme == "file".toList then
    match set_io schemeless (!stdio.stdin.isEmpty) stdio
      { uri := some uri, mode := none, copy := false,
        stdinPath := [], stdoutPath := [], stderrPath := [],
        terminal := stdio.terminal } with
    | .error e => .error e
    | .ok pio2 => .ok { pio2 with mode := some .pipedIo, copy := true }
  else .error (.other "unknown scheme")

/-- `create_io` (common.rs:49-136).  All-empty stdio installs the null
I/O; otherwise the trimmed stdout decides: without a `://` separator the
scheme defaults to `fifo` and the URI becomes `fifo://<stdout>` (still
`Url::parse`d, `?`-propagating failure); with a separator the stdout is
parsed and the (lowercased) URL scheme dispatches. -/
def create_io (stdio : StdioCfg) : Except ShimErr ProcessIo :=
  if stdio.isNull then
    .ok { uri := none, mode := some .nullIo, copy := false,
          stdinPath := stdio.stdin, stdoutPath := stdio.stdout,
          stderrPath := stdio.stderr, terminal := stdio.terminal }
  else if hasSchemeSep stdio.stdout then
    match urlParse stdio.stdout with
    | none => .error .urlParseError
    | some u => createIoDispatch (lowerStr u.scheme) stdio.stdout false stdio
  else
    match urlParse ("fifo://".toList ++ stdio.stdout) with
    | none => .error .urlParseError
    | some _ =>
      createIoDispatch "fifo".toList ("fifo://".toList ++ stdio.stdout) true stdio

theorem dropWhile_id_of_false (f : Char → Bool) :
    ∀ l : List Char, (∀ c ∈ l, f c = false) → l.dropWhile f = l := by
  intro l h
  cases l with
  | nil => rfl
  | cons c t =>
    rw [List.dropWhile_cons, h c (List.mem_cons_self c t)]
    simp

theorem trimStr_eq_self (s : List Char) (h : ∀ c ∈ s, c.isWhitespace = false) :
    trimStr s = s := by
  unfold trimStr
  rw [dropWhile_id_of_false _ s h,
    dropWhile_id_of_false _ s.reverse (fun c hc => h c (List.mem_reverse.mp hc)),
    List.reverse_reverse]

/-- A colon-free string has no `"://"` separator. -/
theorem noColon_noSub (s : List Char) (h : ∀ c ∈ s, (c == ':') = false) :
    hasSub "://".toList s = false := by
  induction s with
  | nil => rfl
  | cons c t ih =>
    have hc : (':' == c) = false := by
      have hcc := h c (List.mem_cons_self c t)
      exact beq_eq_false_iff_ne.mpr (Ne.symm (beq_eq_false_iff_ne.mp hcc))
    have hpre : isPre "://".toList (c :: t) = false := by
      show ((':' == c) && isPre "//".toList t) = false
      rw [hc]
      rfl
    show (isPre "://".toList (c :: t) || hasSub "://".toList t) = false
    rw [hpre, ih (fun d hd => h d (List.mem_cons_of_mem c hd))]
    rfl

/-- Characters for which the URL model coincides with the `url` crate on
path handling (no colon, no whitespace, no percent-encoding or dot
normalization triggers). -/
def plainChar (c : Char) : Bool :=
  c.isAlpha || c.isDigit || c == '/' || c == '-' || c == '_'

/-- An absolute path of plain characters. -/
def plainAbsPath (p : List Char) : Bool :=
  !p.isEmpty && (p.head? == some '/') && p.all plainChar

theorem plainChar_no_colon {c : Char} (h : plainChar c = true) :
    (c == ':') = false := by
  cases hc : c == ':' with
  | false => rfl
  | true =>
    have : c = ':' := eq_of_beq hc
    subst this
    exact absurd h (by decide)

theorem plainChar_no_ws {c : Char} (h : plainChar c = true) :
    c.isWhitespace = false := by
  cases hw : c.isWhitespace with
  | false => rfl
  | true =>
    have hd : c = ' ' ∨ c = '\t' ∨ c = '\r' ∨ c = '\n' := by
      simpa [Char.isWhitespace, or_assoc] using hw
    rcases hd with rfl | rfl | rfl | rfl <;> exact absurd h (by decide)

theorem plainAbsPath_cases {p : List Char} (h : plainAbsPath p = true) :
    ∃ p₁, p = '/' :: p₁ ∧ ∀ c ∈ p, plainChar c = true := by
  unfold plainAbsPath at h
  simp only [Bool.and_eq_true] at h
  obtain ⟨⟨hne, hhd⟩, hall⟩ := h
  cases p with
  | nil => simp at hne
  | cons c t =>
    have hc : c = '/' := by
      simpa using hhd
    subst hc
    exact ⟨t, rfl, fun d hd => List.all_eq_true.mp hall d hd⟩

/-- C7 (counterexample).  With the relative path `a`, the scheme-carrying
call `create_io("fifo://a", ...)` stores `""` for the copier (the `url`
crate takes `a` as the authority, so `Url::path()` is empty) while the
schemeless call `create_io("a", ...)` stores the raw `"a"` — the stored
path is not `<p>` and the two wirings differ. -/
theorem C7_counterexample :
    create_io ⟨[], "fifo://a".toList, "fifo://b".toList, false⟩
      = .ok ⟨some "fifo://a".toList, some .pipedIo, true, [], [], [], false⟩ ∧
    create_io ⟨[], "a".toList, "b".toList, false⟩
      = .ok ⟨some "fifo://a".toList, some .pipedIo, true, [], "a".toList,
          "b".toList, false⟩ ∧
    ([] : List Char) ≠ "a".toList := by
  exact ⟨rfl, rfl, by decide⟩

/-- C7 (amended).  For *absolute* plain paths `p` (and stderr given in the
matching form, stdin empty), `create_io` with stdout `fifo://<p>` and with
schemeless stdout `<p>` produce identical wiring — piped mode, copying
enabled, the same `fifo://<p>` URI — and the path stored for the copier is
exactly `<p>` in both. -/
theorem C7_scheme_equiv (p q : List Char)
    (hp : plainAbsPath p = true) (hq : plainAbsPath q = true) :
    create_io ⟨[], "fifo://".toList ++ p, "fifo://".toList ++ q, false⟩
      = .ok ⟨some ("fifo://".toList ++ p), some .pipedIo, true, [], p, q, false⟩ ∧
    create_io ⟨[], p, q, false⟩
      = .ok ⟨some ("fifo://".toList ++ p), some .pipedIo, true, [], p, q, false⟩ := by
  obtain ⟨p₁, rfl, hpc⟩ := plainAbsPath_cases hp
  obtain ⟨q₁, rfl, hqc⟩ := plainAbsPath_cases hq
  have hwsfifo : ∀ c ∈ "fifo://".toList, c.isWhitespace = false := by decide
  have hws1 : ∀ c ∈ "fifo://".toList ++ ('/' :: p₁), c.isWhitespace = false := by
    intro c hc
    rcases List.mem_append.mp hc with hc | hc
    · exact hwsfifo c hc
    · exact plainChar_no_ws (hpc c hc)
  have e1 : hasSchemeSep ("fifo://".toList ++ ('/' :: p₁)) = true := by
    unfold hasSchemeSep
    rw [trimStr_eq_self _ hws1]
    exact rfl
  have hws2 : ∀ c ∈ '/' :: p₁, c.isWhitespace = false :=
    fun c hc => plainChar_no_ws (hpc c hc)
  have e2 : hasSchemeSep ('/' :: p₁) = false := by
    unfold hasSchemeSep
    rw [trimStr_eq_self _ hws2]
    exact noColon_noSub _ (fun c hc => plainChar_no_colon (hpc c hc))
  constructor
  · simp only [create_io]
    rw [e1]
    exact rfl
  · simp only [create_io]
    rw [e2]
    exact rfl

/-- C7 (witness): the amended theorem at `p = "/a"`, `q = "/b"`. -/
theorem C7_scheme_equiv_witness :
    create_io ⟨[], "fifo:///a".toList, "fifo:///b".toList, false⟩
      = .ok ⟨some "fifo:///a".toList, some .pipedIo, true, [], "/a".toList,
          "/b".toList, false⟩ ∧
    create_io ⟨[], "/a".toList, "/b".toList, false⟩
      = .ok ⟨some "fifo:///a".toList, some .pipedIo, true, [], "/a".toList,
          "/b".toList, false⟩ := by
  have h := C7_scheme_equiv "/a".toList "/b".toList (by decide) (by decide)
  exact ⟨h.1, h.2⟩

/-- Does `create_io`'s outcome carry an `InvalidArgument` error? -/
def isInvalidArg : Except ShimErr ProcessIo → Bool
  | .error (.invalidArgument _) => true
  | _ => false

/-- C8 (counterexample).  An unknown scheme (`http`) is rejected, but with
`Error::Other("unknown scheme")`, not with `Error::InvalidArgument`. -/
theorem C8_counterexample :
    create_io ⟨[], "http://a/b".toList, "http://a/c".toList, false⟩
      = .error (.other "unknown scheme") ∧
    isInvalidArg (create_io ⟨[], "http://a/b".toList, "http://a/c".toList, false⟩)
      = false := ⟨rfl, rfl⟩

/-- C8 (amended).  A stdout URI (stdio not all-empty) whose scheme is
neither `fifo` nor `file` nor `binary` is rejected — with the generic
`Error::Other("unknown scheme")` rather than `InvalidArgument`. -/
theorem C8_unknown_scheme (stdio : StdioCfg) (u : UrlRec)
    (hnull : stdio.isNull = false)
    (hsep : hasSchemeSep stdio.stdout = true)
    (hparse : urlParse stdio.stdout = some u)
    (hb : (lowerStr u.scheme == "binary".toList) = false)
    (hf : (lowerStr u.scheme == "fifo".toList) = false)
    (hfl : (lowerStr u.scheme == "file".toList) = false) :
    create_io stdio = .error (.other "unknown scheme") := by
  simp only [create_io]
  rw [hnull, hsep, hparse]
  show createIoDispatch (lowerStr u.scheme) stdio.stdout false stdio
      = .error (.other "unknown scheme")
  simp only [createIoDispatch]
  rw [hb, hf, hfl]
  exact rfl

/-- C8 (witness): `ftp://host/x` is rejected as an unknown scheme. -/
theorem C8_unknown_scheme_witness :
    create_io ⟨[], "ftp://host/x".toList, [], false⟩
      = .error (.other "unknown scheme") := by
  exact C8_unknown_scheme ⟨[], "ftp://host/x".toList, [], false⟩
    ⟨"ftp".toList, "host".toList, "/x".toList⟩ rfl rfl rfl rfl rfl rfl

end Shim
